import Mathlib

/-!
Shallow embedding of the HDD-Tool media sanitization engine.

The definitions below are translated from the Rust sources of the repository:

* `safewipe-engine/src/device.rs`    — device model and capability flags;
* `safewipe-engine/src/wipe.rs`      — the `SanitizationEngine` (Clear/Purge/Destroy
  dispatch, purge-method selection, demo-mode guard, pattern passes, verification);
* `safewipe-engine/src/sanitization.rs` — the `SafeWipeController` (plan creation and
  plan execution);
* `src/sanitization.rs`              — `DataSanitizer` (software patterns and
  `verify_sanitization`);
* `src/hpa_dco.rs`                   — HPA detection and removal;
* `src/security/certificate.rs`      — the certificate authority (issue / verify).

Effectful Rust code is embedded by explicit oracles: the outcome of every external
interaction (file opens, writes, spawned `hdparm`/`nvme`/`blkdiscard` processes, ATA
pass-through commands, sampled device reads) is a field of a "world" structure passed
as an argument, and every function additionally returns the list of device-touching
actions it performed, so that "no device I/O happens" is a provable statement.
Wall-clock timestamps, progress callbacks and log output are omitted: they do not
influence any control flow.  Machine integers (`u64`, `u16`, `u8`) are represented by
`Nat`; no arithmetic in the embedded fragments can overflow (all values are bounded
by construction, subtraction is guarded in the source).  SHA-256, base64/PEM codecs
and RSA signatures are abstracted by a `CryptoPrim` record of opaque functions; the
certificate theorems take the standard correctness assumptions on that record as
hypotheses and their witnesses instantiate it with a concrete toy scheme.
-/

namespace HddTool

/-! ## Device model (safewipe-engine/src/device.rs) -/

/-- Drive type classification.  NVMe drives are classified as `SSD` by
`determine_drive_characteristics`; there is no separate NVMe drive type. -/
inductive DriveType where
  | HDD
  | SSD
  | Removable
  | Unknown
  deriving DecidableEq

/-- Bus interface of a device. -/
inductive Interface where
  | SATA
  | NVMe
  | USB
  | SCSI
  | Unknown
  deriving DecidableEq

/-- Hardware sanitize capability flags of a device (struct `VendorCapabilities`). -/
structure VendorCapabilities where
  supports_ata_secure_erase : Bool
  supports_nvme_sanitize : Bool
  supports_crypto_erase : Bool
  supports_enhanced_erase : Bool
  deriving DecidableEq

/-- Block device record (struct `Device`). -/
structure Device where
  path : String
  name : String
  size : Nat
  device_type : DriveType
  interface : Interface
  vendor : Option String
  model : Option String
  serial : Option String
  capabilities : VendorCapabilities
  mount_points : List String
  is_system_drive : Bool
  deriving DecidableEq

/-- `Device::supports_secure_erase`. -/
def Device.supports_secure_erase (d : Device) : Bool :=
  match d.device_type with
  | .SSD =>
      d.capabilities.supports_ata_secure_erase ||
      d.capabilities.supports_nvme_sanitize ||
      d.capabilities.supports_crypto_erase
  | .HDD => d.capabilities.supports_ata_secure_erase
  | _ => false

/-! ## Sanitization engine data model (safewipe-engine/src/wipe.rs) -/

/-- Requested compliance level (enum `SanitizationMethod`). -/
inductive SanitizationMethod where
  | Clear
  | Purge
  | Destroy
  deriving DecidableEq

/-- Overwrite pattern selected for a Clear operation (enum `ClearPattern`). -/
inductive ClearPattern where
  | Zeros
  | Ones
  | Random
  | DoD5220 (passes : Nat)
  | Gutmann
  deriving DecidableEq

/-- NVMe sanitize mode (enum `NvmeSanitizeMode`). -/
inductive NvmeSanitizeMode where
  | Block
  | Crypto
  | Overwrite
  deriving DecidableEq

/-- Hardware purge method (enum `PurgeMethod`). -/
inductive PurgeMethod where
  | AtaSecureErase
  | AtaEnhancedSecureErase
  | NvmeSanitize (mode : NvmeSanitizeMode)
  | CryptoErase
  | VendorSpecific (tool : String)
  | SecureFactoryReset
  deriving DecidableEq

/-- Job status (enum `WipeStatus`). -/
inductive WipeStatus where
  | Starting
  | InProgress
  | Verifying
  | Completed
  | Failed (msg : String)
  | Aborted
  deriving DecidableEq

/-- Result record of one sanitization job (struct `WipeResult`).  The wall-clock
fields `started_at`, `completed_at` and `duration` are omitted. -/
structure WipeResult where
  id : String
  device : Device
  method : SanitizationMethod
  status : WipeStatus
  verification_passed : Bool
  error_message : Option String
  patterns_used : List String
  deriving DecidableEq

/-- The sanitization engine.  The progress callback is omitted (observer only). -/
structure SanitizationEngine where
  allow_real_devices : Bool
  deriving DecidableEq

/-- `SanitizationEngine::new` — defaults to safe (demo) mode. -/
def SanitizationEngine.new : SanitizationEngine :=
  { allow_real_devices := false }

/-- `SanitizationEngine::with_real_device_access`. -/
def SanitizationEngine.with_real_device_access (e : SanitizationEngine) (enabled : Bool) :
    SanitizationEngine :=
  { e with allow_real_devices := enabled }

/-! ## Effect oracles and action traces

Results of the engine's external interactions, supplied as an oracle. -/

/-- Outcomes of the external world for one engine run: whether file opens and
writes succeed, whether each spawned privileged command exits successfully, and
the verification buffers that are successfully read back from the device
(the source reads up to 10 blocks of 4096 bytes at random offsets and silently
skips blocks whose seek or read fails). -/
structure EngineWorld where
  openWriteOk : Bool
  writeOk : Bool
  openRandomOk : Bool
  openReadOk : Bool
  verifySamples : List (List Nat)
  setPassOk : Bool
  eraseOk : Bool
  nvmeSanitizeOk : Bool
  nvmeFormatOk : Bool
  blkdiscardOk : Bool
  deriving DecidableEq

/-- Privileged processes the engine spawns. -/
inductive ProcCmd where
  | hdparmSetPass (path pw : String)
  | hdparmSecurityErase (path : String) (enhanced : Bool)
  | nvmeSanitizeCmd (path : String) (mode : NvmeSanitizeMode)
  | nvmeFormatCryptoErase (path : String)
  | blkdiscard (path : String)
  deriving DecidableEq

/-- Contents written by one overwrite pass: a concrete byte buffer or
freshly generated random data. -/
inductive PassBuf where
  | bytes (pattern : List Nat)
  | random
  deriving DecidableEq

/-- Device-touching actions performed by the engine. -/
inductive Action where
  | openWrite (path : String)
  | writeAll (path : String) (bytes : Nat) (buf : PassBuf)
  | flushSync (path : String)
  | openRead (path : String)
  | readBlock (path : String)
  | proc (c : ProcCmd)
  deriving DecidableEq

/-- True for process-command actions, false for direct file/device I/O. -/
def Action.isProc : Action → Bool
  | .proc _ => true
  | _ => false

/-! ## Overwrite passes (safewipe-engine/src/wipe.rs) -/

/-- One real-mode pass of `overwrite_with_pattern`: open the device for writing,
write the pattern over the whole device in chunks (collapsed to a single
`writeAll` action; no claim depends on the chunking), then flush and sync. -/
def overwrite_pass_real (d : Device) (pattern : List Nat) (w : EngineWorld) :
    Except String Unit × List Action :=
  if !w.openWriteOk then
    (.error "Cannot access device: open failed", [.openWrite d.path])
  else if !w.writeOk then
    (.error "Write failed",
      [.openWrite d.path, .writeAll d.path d.size (.bytes pattern)])
  else
    (.ok (),
      [.openWrite d.path, .writeAll d.path d.size (.bytes pattern), .flushSync d.path])

/-- `SanitizationEngine::overwrite_with_pattern`.  In demo mode
(`allow_real_devices = false`) every pass only sleeps and reports simulated
progress: no device action is performed. -/
def overwrite_with_pattern (e : SanitizationEngine) (d : Device) (pattern : List Nat) :
    Nat → EngineWorld → Except String Unit × List Action
  | 0, _ => (.ok (), [])
  | n + 1, w =>
    if e.allow_real_devices then
      match overwrite_pass_real d pattern w with
      | (.ok _, acts) =>
          let (r, rest) := overwrite_with_pattern e d pattern n w
          (r, acts ++ rest)
      | (.error s, acts) => (.error s, acts)
    else
      overwrite_with_pattern e d pattern n w

/-- `SanitizationEngine::overwrite_with_random`.  The demo-mode guard here only
triggers for paths that look like real devices (containing a drive-letter colon
or starting with `/dev/`); an open failure is downgraded to simulation
(`continue`), not an error. -/
def overwrite_with_random (e : SanitizationEngine) (d : Device) :
    Nat → EngineWorld → Except String Unit × List Action
  | 0, _ => (.ok (), [])
  | n + 1, w =>
    if !e.allow_real_devices && (d.path.contains ':' || d.path.startsWith "/dev/") then
      overwrite_with_random e d n w
    else if !w.openRandomOk then
      let (r, rest) := overwrite_with_random e d n w
      (r, .openWrite d.path :: rest)
    else if !w.writeOk then
      (.error "Write failed", [.openWrite d.path, .writeAll d.path d.size .random])
    else
      let (r, rest) := overwrite_with_random e d n w
      (r, [.openWrite d.path, .writeAll d.path d.size .random, .flushSync d.path] ++ rest)

/-- The 1 MiB all-zeros buffer (`[0u8; 1024 * 1024]`). -/
def zeros_buf : List Nat := List.replicate 1048576 0

/-- The 1 MiB all-ones buffer (`[0xFFu8; 1024 * 1024]`). -/
def ones_buf : List Nat := List.replicate 1048576 255

/-- One pass of `perform_dod_5220_wipe`: pass number ≡ 1 (mod 3) writes zeros,
≡ 2 writes ones, ≡ 0 writes random data. -/
def dod_pass (e : SanitizationEngine) (d : Device) (w : EngineWorld) (pass : Nat) :
    Except String Unit × List Action :=
  if pass % 3 == 1 then overwrite_with_pattern e d zeros_buf 1 w
  else if pass % 3 == 2 then overwrite_with_pattern e d ones_buf 1 w
  else overwrite_with_random e d 1 w

/-- Ascending pass loop of `perform_dod_5220_wipe` (`remaining` passes starting
at pass index `pass`). -/
def dod_go (e : SanitizationEngine) (d : Device) (w : EngineWorld) :
    Nat → Nat → Except String Unit × List Action
  | 0, _ => (.ok (), [])
  | n + 1, pass =>
    match dod_pass e d w pass with
    | (.ok _, acts) =>
        let (r, rest) := dod_go e d w n (pass + 1)
        (r, acts ++ rest)
    | (.error s, acts) => (.error s, acts)

/-- `SanitizationEngine::perform_dod_5220_wipe`. -/
def perform_dod_5220_wipe (e : SanitizationEngine) (d : Device) (passes : Nat)
    (w : EngineWorld) : Except String Unit × List Action :=
  dod_go e d w passes 1

/-- The three fixed Gutmann patterns of `perform_gutmann_wipe`, each extended by
repetition to 1 MiB. -/
def gutmann_patterns : List (List Nat) :=
  [(List.replicate 262144 [0x55, 0x55, 0x55, 0x55]).flatten,
   (List.replicate 262144 [0xAA, 0xAA, 0xAA, 0xAA]).flatten,
   (List.replicate 262144 [0x92, 0x49, 0x24, 0x92]).flatten]

/-- Fixed-pattern phase of `perform_gutmann_wipe`. -/
def gutmann_fixed_go (e : SanitizationEngine) (d : Device) (w : EngineWorld) :
    List (List Nat) → Except String Unit × List Action
  | [] => (.ok (), [])
  | p :: ps =>
    match overwrite_with_pattern e d p 1 w with
    | (.ok _, acts) =>
        let (r, rest) := gutmann_fixed_go e d w ps
        (r, acts ++ rest)
    | (.error s, acts) => (.error s, acts)

/-- `SanitizationEngine::perform_gutmann_wipe`: three fixed patterns, then 31
random passes. -/
def perform_gutmann_wipe (e : SanitizationEngine) (d : Device) (w : EngineWorld) :
    Except String Unit × List Action :=
  match gutmann_fixed_go e d w gutmann_patterns with
  | (.ok _, acts) =>
      let (r, rest) := overwrite_with_random e d 31 w
      (r, acts ++ rest)
  | (.error s, acts) => (.error s, acts)

/-! ## Clear operation (safewipe-engine/src/wipe.rs) -/

/-- The pattern chosen by `perform_clear_operation` from the drive type:
`SSD → Random`, `HDD → DoD5220(3)`, everything else (Removable, Unknown) →
`Zeros` (the wildcard arm of the source `match`). -/
def clear_pattern_choice : DriveType → ClearPattern
  | .SSD => .Random
  | .HDD => .DoD5220 3
  | _ => .Zeros

/-- `SanitizationEngine::execute_clear_pattern`: records the pattern name in
`patterns_used`, then runs the corresponding overwrite. -/
def execute_clear_pattern (e : SanitizationEngine) (d : Device) (pattern : ClearPattern)
    (result : WipeResult) (w : EngineWorld) : Except String WipeResult × List Action :=
  match pattern with
  | .Zeros =>
      let r := { result with patterns_used := result.patterns_used ++ ["zeros"] }
      match overwrite_with_pattern e d zeros_buf 1 w with
      | (.ok _, acts) => (.ok r, acts)
      | (.error s, acts) => (.error s, acts)
  | .Ones =>
      let r := { result with patterns_used := result.patterns_used ++ ["ones"] }
      match overwrite_with_pattern e d ones_buf 1 w with
      | (.ok _, acts) => (.ok r, acts)
      | (.error s, acts) => (.error s, acts)
  | .Random =>
      let r := { result with patterns_used := result.patterns_used ++ ["random"] }
      match overwrite_with_random e d 1 w with
      | (.ok _, acts) => (.ok r, acts)
      | (.error s, acts) => (.error s, acts)
  | .DoD5220 passes =>
      let r := { result with patterns_used :=
        result.patterns_used ++ ["DoD 5220.22-M (" ++ toString passes ++ " passes)"] }
      match perform_dod_5220_wipe e d passes w with
      | (.ok _, acts) => (.ok r, acts)
      | (.error s, acts) => (.error s, acts)
  | .Gutmann =>
      let r := { result with patterns_used := result.patterns_used ++ ["Gutmann 35-pass"] }
      match perform_gutmann_wipe e d w with
      | (.ok _, acts) => (.ok r, acts)
      | (.error s, acts) => (.error s, acts)

/-- `SanitizationEngine::verify_clear_operation`: in demo mode the check is
skipped and reports success; otherwise the device is opened for reading
(open failure reports `false`) and each successfully sampled 4096-byte block
must contain only zero bytes, whatever pattern was written. -/
def verify_clear_operation (e : SanitizationEngine) (d : Device) (w : EngineWorld) :
    Bool × List Action :=
  if !e.allow_real_devices then (true, [])
  else if !w.openReadOk then (false, [.openRead d.path])
  else
    (w.verifySamples.all (fun b => b.all (fun x => x == 0)),
     .openRead d.path :: w.verifySamples.map (fun _ => .readBlock d.path))

/-- `SanitizationEngine::perform_clear_operation`. -/
def perform_clear_operation (e : SanitizationEngine) (d : Device) (result : WipeResult)
    (w : EngineWorld) : Except String WipeResult × List Action :=
  let pattern := clear_pattern_choice d.device_type
  let r1 := { result with status := .InProgress }
  match execute_clear_pattern e d pattern r1 w with
  | (.error s, acts) => (.error s, acts)
  | (.ok r2, acts) =>
      let r3 := { r2 with status := .Verifying }
      let (vp, vacts) := verify_clear_operation e d w
      (.ok { r3 with
              verification_passed := vp,
              status := if vp then .Completed else .Failed "Verification failed" },
       acts ++ vacts)

/-! ## Purge operation (safewipe-engine/src/wipe.rs) -/

/-- `SanitizationEngine::select_purge_method`: branches on the drive type first,
then on capability flags. -/
def select_purge_method (_e : SanitizationEngine) (device : Device) :
    Except String PurgeMethod :=
  match device.device_type with
  | .SSD =>
      if device.capabilities.supports_crypto_erase then .ok .CryptoErase
      else if device.capabilities.supports_nvme_sanitize then .ok (.NvmeSanitize .Block)
      else if device.capabilities.supports_ata_secure_erase then .ok .AtaEnhancedSecureErase
      else .error "SSD does not support any secure purge methods"
  | .HDD =>
      if device.capabilities.supports_ata_secure_erase then
        if device.capabilities.supports_enhanced_erase then .ok .AtaEnhancedSecureErase
        else .ok .AtaSecureErase
      else .error "HDD does not support secure erase"
  | .Removable =>
      if device.capabilities.supports_crypto_erase then .ok .CryptoErase
      else .ok (.VendorSpecific "removable-secure-erase")
  | .Unknown => .error "Unknown device type does not support purge operations"

/-- `SanitizationEngine::execute_ata_secure_erase`: in demo mode, simulated
success with no I/O; otherwise spawn `hdparm --security-set-pass` then
`hdparm --security-erase`. -/
def execute_ata_secure_erase (e : SanitizationEngine) (d : Device) (w : EngineWorld) :
    Except String Unit × List Action :=
  if !e.allow_real_devices then (.ok (), [])
  else if !w.setPassOk then
    (.error "Failed to set ATA password", [.proc (.hdparmSetPass d.path "NULL")])
  else if !w.eraseOk then
    (.error "ATA Secure Erase failed",
      [.proc (.hdparmSetPass d.path "NULL"), .proc (.hdparmSecurityErase d.path false)])
  else
    (.ok (),
      [.proc (.hdparmSetPass d.path "NULL"), .proc (.hdparmSecurityErase d.path false)])

/-- `SanitizationEngine::execute_ata_enhanced_secure_erase`. -/
def execute_ata_enhanced_secure_erase (e : SanitizationEngine) (d : Device)
    (w : EngineWorld) : Except String Unit × List Action :=
  if !e.allow_real_devices then (.ok (), [])
  else if !w.setPassOk then
    (.error "Failed to set ATA password", [.proc (.hdparmSetPass d.path "NULL")])
  else if !w.eraseOk then
    (.error "ATA Enhanced Secure Erase failed",
      [.proc (.hdparmSetPass d.path "NULL"), .proc (.hdparmSecurityErase d.path true)])
  else
    (.ok (),
      [.proc (.hdparmSetPass d.path "NULL"), .proc (.hdparmSecurityErase d.path true)])

/-- `SanitizationEngine::execute_nvme_sanitize`. -/
def execute_nvme_sanitize (e : SanitizationEngine) (d : Device) (mode : NvmeSanitizeMode)
    (w : EngineWorld) : Except String Unit × List Action :=
  if !e.allow_real_devices then (.ok (), [])
  else if !w.nvmeSanitizeOk then
    (.error "NVMe sanitize failed", [.proc (.nvmeSanitizeCmd d.path mode)])
  else (.ok (), [.proc (.nvmeSanitizeCmd d.path mode)])

/-- `SanitizationEngine::execute_crypto_erase`: for SSDs try `nvme format --ses 2`
and fall back to `blkdiscard`; for removable media use `blkdiscard`; otherwise
unsupported. -/
def execute_crypto_erase (e : SanitizationEngine) (d : Device) (w : EngineWorld) :
    Except String Unit × List Action :=
  if !e.allow_real_devices then (.ok (), [])
  else
    match d.device_type with
    | .SSD =>
        if w.nvmeFormatOk then (.ok (), [.proc (.nvmeFormatCryptoErase d.path)])
        else if w.blkdiscardOk then
          (.ok (), [.proc (.nvmeFormatCryptoErase d.path), .proc (.blkdiscard d.path)])
        else
          (.error "blkdiscard failed",
            [.proc (.nvmeFormatCryptoErase d.path), .proc (.blkdiscard d.path)])
    | .Removable =>
        if w.blkdiscardOk then (.ok (), [.proc (.blkdiscard d.path)])
        else (.error "blkdiscard failed", [.proc (.blkdiscard d.path)])
    | _ => (.error "Crypto erase not supported for this device type", [])

/-- `SanitizationEngine::execute_vendor_specific_purge`. -/
def execute_vendor_specific_purge (e : SanitizationEngine) (d : Device) (tool : String)
    (w : EngineWorld) : Except String Unit × List Action :=
  if !e.allow_real_devices then (.ok (), [])
  else
    match d.device_type with
    | .Removable | .SSD =>
        if tool == "removable-secure-erase" || tool == "crypto-erase" then
          if w.blkdiscardOk then (.ok (), [.proc (.blkdiscard d.path)])
          else (.error "blkdiscard failed", [.proc (.blkdiscard d.path)])
        else (.error ("Unsupported vendor-specific purge tool: " ++ tool), [])
    | _ => (.error "Vendor-specific purge not supported for this device type", [])

/-- `SanitizationEngine::execute_secure_factory_reset`. -/
def execute_secure_factory_reset (e : SanitizationEngine) (d : Device) (w : EngineWorld) :
    Except String Unit × List Action :=
  if !e.allow_real_devices then (.ok (), [])
  else if w.blkdiscardOk then (.ok (), [.proc (.blkdiscard d.path)])
  else (.error "Secure factory reset failed", [.proc (.blkdiscard d.path)])

/-- Label pushed onto `patterns_used` for each purge method. -/
def purge_method_label : PurgeMethod → String
  | .AtaSecureErase => "ATA Secure Erase"
  | .AtaEnhancedSecureErase => "ATA Enhanced Secure Erase"
  | .NvmeSanitize _ => "NVMe Sanitize"
  | .CryptoErase => "Cryptographic Erase"
  | .VendorSpecific tool => "Vendor-specific purge with " ++ tool
  | .SecureFactoryReset => "Secure Factory Reset"

/-- Executor dispatch of `perform_purge_operation`. -/
def execute_purge_method (e : SanitizationEngine) (d : Device) (m : PurgeMethod)
    (w : EngineWorld) : Except String Unit × List Action :=
  match m with
  | .AtaSecureErase => execute_ata_secure_erase e d w
  | .AtaEnhancedSecureErase => execute_ata_enhanced_secure_erase e d w
  | .NvmeSanitize mode => execute_nvme_sanitize e d mode w
  | .CryptoErase => execute_crypto_erase e d w
  | .VendorSpecific tool => execute_vendor_specific_purge e d tool w
  | .SecureFactoryReset => execute_secure_factory_reset e d w

/-- `SanitizationEngine::perform_purge_operation`: select the method, execute it,
then mark the result completed with `verification_passed := true` (purge methods
are treated as self-verifying). -/
def perform_purge_operation (e : SanitizationEngine) (d : Device) (result : WipeResult)
    (w : EngineWorld) : Except String WipeResult × List Action :=
  match select_purge_method e d with
  | .error s => (.error s, [])
  | .ok m =>
      let r1 := { result with
                    status := WipeStatus.InProgress,
                    patterns_used := result.patterns_used ++ [purge_method_label m] }
      match execute_purge_method e d m w with
      | (.error s, acts) => (.error s, acts)
      | (.ok _, acts) =>
          (.ok { r1 with status := .Completed, verification_passed := true }, acts)

/-- `SanitizationEngine::perform_destroy_operation`: prints physical-destruction
guidance only; no device I/O. -/
def perform_destroy_operation (_e : SanitizationEngine) (_d : Device)
    (result : WipeResult) : Except String WipeResult × List Action :=
  (.ok { result with
           status := .Completed,
           verification_passed := true,
           patterns_used := result.patterns_used ++ ["Physical Destruction Instructions"] },
   [])

/-- `SanitizationEngine::sanitize_device`: builds the initial result record,
refuses system drives before dispatching, then runs the requested operation.
`wipe_id` stands for the freshly generated UUID. -/
def sanitize_device (e : SanitizationEngine) (d : Device) (m : SanitizationMethod)
    (wipe_id : String) (w : EngineWorld) : Except String WipeResult × List Action :=
  let result0 : WipeResult :=
    { id := wipe_id, device := d, method := m, status := .Starting,
      verification_passed := false, error_message := none, patterns_used := [] }
  if d.is_system_drive then
    (.error "Cannot sanitize system drive for safety reasons", [])
  else
    match m with
    | .Clear => perform_clear_operation e d result0 w
    | .Purge => perform_purge_operation e d result0 w
    | .Destroy => perform_destroy_operation e d result0

/-! ## Controller (safewipe-engine/src/sanitization.rs) -/

/-- A sanitization plan (struct `SanitizationPlan`); duration in seconds. -/
structure SanitizationPlan where
  devices : List Device
  method : SanitizationMethod
  estimated_duration : Nat
  safety_warnings : List String
  deriving DecidableEq

/-- Per-device-kind Clear duration estimate of `create_sanitization_plan`
(seconds, integer division as in the source). -/
def device_clear_secs (d : Device) : Nat :=
  match d.device_type with
  | .HDD => d.size / (50 * 1024 * 1024)
  | .SSD => d.size / (200 * 1024 * 1024)
  | .Removable => d.size / (20 * 1024 * 1024)
  | .Unknown => d.size / (10 * 1024 * 1024)

/-- Per-device warnings and duration contribution inside
`create_sanitization_plan`: a system drive only gets a "will be skipped"
warning and contributes no duration; other devices get a duration estimate and,
for Purge, a compatibility warning when no secure-erase method is supported. -/
def plan_device_warn_dur (method : SanitizationMethod) (d : Device) :
    List String × Nat :=
  if d.is_system_drive then
    (["⚠️ " ++ d.name ++ " is a system drive and will be skipped"], 0)
  else
    let dur := match method with
      | .Clear => device_clear_secs d
      | .Purge => 60
      | .Destroy => 5
    let warn := match method with
      | .Purge =>
          if !d.supports_secure_erase then
            ["⚠️ " ++ d.name ++ " does not support secure purge methods"]
          else []
      | _ => []
    (warn, dur)

/-- General warnings appended by `create_sanitization_plan`. -/
def plan_general_warnings : SanitizationMethod → List String
  | .Clear | .Purge =>
      ["⚠️ This operation will PERMANENTLY destroy all data",
       "⚠️ Ensure you have backups of any important data",
       "⚠️ This operation cannot be undone"]
  | .Destroy =>
      ["⚠️ Physical destruction requires manual intervention",
       "⚠️ Follow all safety protocols when handling storage media"]

/-- `SafeWipeController::create_sanitization_plan`: always returns `Ok`.  System
devices are kept in the plan's device list; they only produce a warning. -/
def create_sanitization_plan (devices : List Device) (method : SanitizationMethod) :
    Except String SanitizationPlan :=
  let per := devices.map (plan_device_warn_dur method)
  .ok { devices := devices
        method := method
        estimated_duration := (per.map Prod.snd).sum
        safety_warnings := (per.map Prod.fst).flatten ++ plan_general_warnings method }

/-- Failure record pushed by `execute_plan` when the engine returns an error
(`wipe_id` stands for the freshly generated UUID). -/
def failed_wipe_result (d : Device) (method : SanitizationMethod) (msg : String) :
    WipeResult :=
  { id := "failed", device := d, method := method, status := .Failed msg,
    verification_passed := false, error_message := some msg, patterns_used := [] }

/-- Outcome of `SafeWipeController::execute_plan`: the collected results, the
overall-success flag, the devices the engine was actually invoked on, and the
combined device-action trace. -/
structure ExecOutcome where
  results : List WipeResult
  overall_success : Bool
  invoked : List Device
  trace : List Action
  deriving DecidableEq

/-- Device loop of `execute_plan`: system drives are skipped (the engine is not
invoked on them); each other device is sanitized and an engine error is turned
into a failed result. -/
def execute_plan_go (e : SanitizationEngine) (method : SanitizationMethod)
    (w : EngineWorld) : List Device → ExecOutcome
  | [] => { results := [], overall_success := true, invoked := [], trace := [] }
  | d :: rest =>
    let o := execute_plan_go e method w rest
    if d.is_system_drive then o
    else
      match sanitize_device e d method "job" w with
      | (.ok r, acts) =>
          { results := r :: o.results,
            overall_success := (r.status == .Completed) && o.overall_success,
            invoked := d :: o.invoked,
            trace := acts ++ o.trace }
      | (.error s, acts) =>
          { results := failed_wipe_result d method s :: o.results,
            overall_success := false,
            invoked := d :: o.invoked,
            trace := acts ++ o.trace }

/-- `SafeWipeController::execute_plan`. -/
def execute_plan (e : SanitizationEngine) (plan : SanitizationPlan) (w : EngineWorld) :
    ExecOutcome :=
  execute_plan_go e plan.method w plan.devices

/-! ## DataSanitizer (src/sanitization.rs) -/

/-- Software overwrite pattern (enum `SanitizationPattern`). -/
inductive SanitizationPattern where
  | Zeros
  | Ones
  | Random
  | DoD5220
  | Custom (b : Nat)
  deriving DecidableEq

/-- The pass list of `DataSanitizer::purge`: a three-pass software overwrite. -/
def DataSanitizer.purge_patterns : List SanitizationPattern :=
  [.Random, .Custom 0x55, .Custom 0xAA]

/-- `DataSanitizer::verify_sanitization` over a device whose byte contents are
`content`: a single `read_exact` of `check_size` bytes from the start of the
device (default `min (device size) 1 MiB`), then a whole-buffer pattern check.
For `Random` the buffer must be neither all-zeros nor all-ones. -/
def verify_sanitization (content : List Nat) (expected_pattern : SanitizationPattern)
    (sample_size : Option Nat) : Except String Bool :=
  let device_size := content.length
  let check_size := sample_size.getD (min device_size 1048576)
  if device_size < check_size then .error "failed to fill whole buffer"
  else
    let buffer := content.take check_size
    match expected_pattern with
    | .Random =>
        .ok (!(buffer.all (fun b => b == 0)) && !(buffer.all (fun b => b == 255)))
    | .Zeros => .ok (buffer.all (fun b => b == 0))
    | .Ones => .ok (buffer.all (fun b => b == 255))
    | .Custom expected => .ok (buffer.all (fun b => b == expected))
    | .DoD5220 =>
        .ok (buffer.enum.all (fun p =>
          if p.1 % 2 == 0 then p.2 == 0x55 else p.2 == 0xAA))

/-! ## HPA detection and removal (src/hpa_dco.rs)

The `AtaInterface` device-command layer (`ata_commands.rs`) is not part of the
sources; its commands are effectful device interactions and are embedded as
oracle inputs: the 256 identify words and the results of
`READ NATIVE MAX ADDRESS` and `SET MAX ADDRESS`. -/

/-- Result of `detect_hpa` (struct `HpaInfo`); the derived `hidden_size_mb`
float is omitted (`hidden_sectors` carries the same information). -/
structure HpaInfo where
  present : Bool
  user_max_lba : Nat
  native_max_lba : Nat
  hidden_sectors : Nat
  deriving DecidableEq

/-- Bit 10 of identify word 83: 48-bit addressing supported
(`words[83] & 0x0400 != 0`). -/
def use_ext_bit (words : List Nat) : Bool :=
  (words.getD 83 0).land 1024 != 0

/-- Max-LBA decode used by `detect_hpa` and `remove_hpa_thoroughly`: words
100–103 for 48-bit addressing, words 60/61 otherwise. -/
def lba_from_words (use_ext : Bool) (words : List Nat) : Nat :=
  if use_ext then
    ((words.getD 103 0) <<< 48) ||| ((words.getD 102 0) <<< 32) |||
    ((words.getD 101 0) <<< 16) ||| (words.getD 100 0)
  else
    ((words.getD 61 0) <<< 16) ||| (words.getD 60 0)

/-- `HpaDcoDetector::detect_hpa`: decode the user max LBA from the identify
words; ask the drive for its native max (`native_res` is the command's result);
a failed command reports no HPA with native = user; otherwise the hidden sector
count is the guarded difference and HPA is present iff it is positive. -/
def detect_hpa (words : List Nat) (native_res : Except String Nat) : HpaInfo :=
  let user_max_lba := lba_from_words (use_ext_bit words) words
  match native_res with
  | .error _ =>
      { present := false, user_max_lba := user_max_lba,
        native_max_lba := user_max_lba, hidden_sectors := 0 }
  | .ok native_max_lba =>
      let hidden_sectors := if native_max_lba > user_max_lba then
        native_max_lba - user_max_lba else 0
      { present := hidden_sectors > 0, user_max_lba := user_max_lba,
        native_max_lba := native_max_lba, hidden_sectors := hidden_sectors }

/-- ATA commands issued through the pass-through interface. -/
inductive AtaCmd where
  | identifyDevice
  | readNativeMax (ext : Bool)
  | setMaxAddress (lba : Nat) (ext : Bool)
  deriving DecidableEq

/-- Oracle for one `remove_hpa_thoroughly` run: the results of the first
IDENTIFY DEVICE, READ NATIVE MAX ADDRESS, SET MAX ADDRESS, and the re-probe
IDENTIFY DEVICE. -/
structure AtaOracle where
  identifyFirst : Except String (List Nat)
  readNativeMax : Except String Nat
  setMax : Except String Unit
  identifySecond : Except String (List Nat)

/-- `HpaDcoDetector::remove_hpa_thoroughly`: probe, read the native max; when it
exceeds the current max, issue SET MAX ADDRESS with the native max, re-probe,
and report `true` exactly when the re-probed max equals the native max
(otherwise `Ok(false)` — removal incomplete); with no HPA, report `true`
without touching the drive further. -/
def remove_hpa_thoroughly (o : AtaOracle) : Except String Bool × List AtaCmd :=
  match o.identifyFirst with
  | .error e => (.error e, [.identifyDevice])
  | .ok words =>
    let use_ext := use_ext_bit words
    let current_max_lba := lba_from_words use_ext words
    match o.readNativeMax with
    | .error e => (.error e, [.identifyDevice, .readNativeMax use_ext])
    | .ok native_max_lba =>
      if native_max_lba > current_max_lba then
        match o.setMax with
        | .error e =>
            (.error e,
             [.identifyDevice, .readNativeMax use_ext,
              .setMaxAddress native_max_lba use_ext])
        | .ok _ =>
          match o.identifySecond with
          | .error e =>
              (.error e,
               [.identifyDevice, .readNativeMax use_ext,
                .setMaxAddress native_max_lba use_ext, .identifyDevice])
          | .ok vwords =>
            let new_current_max := lba_from_words use_ext vwords
            (.ok (new_current_max == native_max_lba),
             [.identifyDevice, .readNativeMax use_ext,
              .setMaxAddress native_max_lba use_ext, .identifyDevice])
      else
        (.ok true, [.identifyDevice, .readNativeMax use_ext])

/-! ## Certificate authority (src/security/certificate.rs)

UUIDs and RFC-3339 timestamps are carried as their rendered strings (the source
only ever formats them into the signing content).  The two derived `f64`
capacity fields and the `f64` sample rate are carried as `Float`; they are
never read by the signing or verification path.  SHA-256 (composed with
`hex::encode`) and the RSA-PKCS#1v1.5 sign/verify pair (composed with the
base64/PEM codecs) are abstracted as the opaque functions of a `CryptoPrim`:
`verifySig pub digest sig` returns `none` when the signature or public key
fails to decode (the source returns `Err`), and `some b` for a decoded
verification outcome. -/

/-- Cryptographic primitives abstracted from the source. -/
structure CryptoPrim where
  hashHex : String → String
  sign : String → String → String
  verifySig : String → String → String → Option Bool

/-- Tail of a separator join: `sep ++ x` for every element. -/
def join_tail (sep : String) : List String → String
  | [] => ""
  | x :: xs => sep ++ x ++ join_tail sep xs

/-- Separator join, as produced by a `format!` string with `sep` between the
placeholders (and by `Vec::join`): empty for `[]`, else the head followed by
`sep ++ element` for each further element. -/
def join_sep (sep : String) (l : List String) : String :=
  match l with
  | [] => ""
  | x :: xs => x ++ join_tail sep xs

/-- Security feature flags of the wiped drive (struct `SecurityFeatures`). -/
structure SecurityFeatures where
  security_supported : Bool
  security_enabled : Bool
  security_locked : Bool
  security_frozen : Bool
  enhanced_erase_supported : Bool
  sanitize_supported : Bool
  crypto_scramble_supported : Bool
  deriving DecidableEq

/-- Geometry of the wiped drive (struct `DriveGeometry`). -/
structure DriveGeometry where
  model : String
  serial : String
  firmware : String
  total_sectors : Nat
  sector_size : Nat
  user_capacity : Nat
  native_capacity : Nat
  has_hpa : Bool
  has_dco : Bool
  hpa_size : Nat
  dco_size : Nat
  deriving DecidableEq

/-- Verification outcome of the wipe (struct `ValidationResult`). -/
structure ValidationResult where
  sectors_verified : Nat
  failed_sectors : List Nat
  pattern_matches : Bool
  checksum_valid : Bool
  completion_time : String
  deriving DecidableEq

/-- Sanitization standard as matched by `certificate.rs`
(`get_pattern_descriptions`). -/
inductive SanitizationStandard where
  | NIST80088Clear
  | NIST80088Purge
  | DoD522022M
  deriving DecidableEq

/-- Debug rendering of a standard (`format!("{:?}", standard)`). -/
def SanitizationStandard.debugStr : SanitizationStandard → String
  | .NIST80088Clear => "NIST80088Clear"
  | .NIST80088Purge => "NIST80088Purge"
  | .DoD522022M => "DoD522022M"

/-- Wipe request (struct `WipeRequest`; only the fields the certificate code
reads). -/
structure WipeRequest where
  id : String
  target_path : String
  standard : SanitizationStandard
  passes : Nat
  verify_erasure : Bool
  deriving DecidableEq

/-- Final wipe record handed to the certificate authority
(struct `core::WipeResult`). -/
structure CoreWipeResult where
  request_id : String
  success : Bool
  start_time : String
  completion_time : String
  duration_seconds : Nat
  sectors_wiped : Nat
  passes_completed : Nat
  validation_result : Option ValidationResult
  error_message : Option String
  drive_geometry : DriveGeometry
  security_features : SecurityFeatures
  deriving DecidableEq

/-- Drive section of a certificate (struct `DriveInfo`). -/
structure DriveInfo where
  model : String
  serial_number : String
  firmware_version : String
  total_capacity_gb : Float
  native_capacity_gb : Float
  had_hpa : Bool
  had_dco : Bool
  security_features : List String

/-- Wipe section of a certificate (struct `WipeDetails`). -/
structure WipeDetails where
  standard_used : String
  passes_completed : Nat
  sectors_wiped : Nat
  start_time : String
  completion_time : String
  duration_minutes : Nat
  patterns_used : List String

/-- Verification section of a certificate (struct `VerificationDetails`). -/
structure VerificationDetails where
  verification_performed : Bool
  sectors_verified : Nat
  verification_sample_rate : Float
  pattern_verification_passed : Bool
  failed_sectors : Nat
  verification_time : Option String

/-- A signed erasure certificate (struct `ErasureCertificate`). -/
structure ErasureCertificate where
  certificate_id : String
  wipe_request_id : String
  issued_at : String
  issuer : String
  organization : String
  drive_info : DriveInfo
  wipe_details : WipeDetails
  verification_details : VerificationDetails
  compliance_standards : List String
  signature : String
  public_key : String
  certificate_hash : String

/-- The issuing authority (struct `CertificateAuthority`). -/
structure CertificateAuthority where
  name : String
  organization : String
  private_key_pem : String
  public_key_pem : String
  certificate_counter : Nat
  deriving DecidableEq

/-- Error record (struct `WipeError`); the code taxonomy is collapsed to the
message (the certificate code only ever constructs `UnknownError`). -/
structure WipeError where
  message : String
  deriving DecidableEq

/-- `CertificateAuthority::format_security_features`. -/
def format_security_features (features : SecurityFeatures) : List String :=
  let result :=
    (if features.security_supported then ["ATA Security"] else []) ++
    (if features.enhanced_erase_supported then ["Enhanced Secure Erase"] else []) ++
    (if features.sanitize_supported then ["Sanitize Command"] else []) ++
    (if features.crypto_scramble_supported then ["Crypto Scramble"] else [])
  if result.isEmpty then ["Basic"] else result

/-- `CertificateAuthority::get_pattern_descriptions`. -/
def get_pattern_descriptions : SanitizationStandard → List String
  | .NIST80088Clear => ["Single pass zeros"]
  | .NIST80088Purge => ["Pass 1: Zeros", "Pass 2: Ones", "Pass 3: Random"]
  | .DoD522022M =>
      ["Pass 1: Zeros", "Pass 2: Ones", "Pass 3: Random", "Pass 4: Verification zeros"]

/-- The 18 rendered fields of the signing content, in the order of the
`format!` string of `get_certificate_content_for_signing`.  Booleans and
numbers render through Rust's `Display`, which agrees with `toString` here. -/
def content_fields (cert : ErasureCertificate) : List String :=
  [cert.certificate_id,
   cert.wipe_request_id,
   cert.issued_at,
   cert.issuer,
   cert.organization,
   cert.drive_info.serial_number,
   cert.drive_info.model,
   cert.wipe_details.standard_used,
   toString cert.wipe_details.passes_completed,
   toString cert.wipe_details.sectors_wiped,
   cert.wipe_details.start_time,
   cert.wipe_details.completion_time,
   toString cert.verification_details.verification_performed,
   toString cert.verification_details.sectors_verified,
   toString cert.verification_details.pattern_verification_passed,
   toString cert.verification_details.failed_sectors,
   join_sep "," cert.compliance_standards,
   cert.public_key]

/-- `CertificateAuthority::get_certificate_content_for_signing`: the `format!`
string `"{}|{}|...|{}"` over the 18 fields, i.e. their `"|"`-join.  Neither
`certificate_hash` nor `signature` is part of the content. -/
def get_certificate_content_for_signing (cert : ErasureCertificate) : String :=
  join_sep "|" (content_fields cert)

/-- `CertificateAuthority::generate_certificate`.  `certificate_id` stands for
the freshly generated UUID and `issued_at` for `Utc::now()`; both are inputs
here.  Returns the certificate together with the authority with its counter
incremented. -/
def generate_certificate (prim : CryptoPrim) (ca : CertificateAuthority)
    (certificate_id issued_at : String) (wipe_request : WipeRequest)
    (wipe_result : CoreWipeResult) : ErasureCertificate × CertificateAuthority :=
  let ca2 := { ca with certificate_counter := ca.certificate_counter + 1 }
  let g := wipe_result.drive_geometry
  let drive_info : DriveInfo :=
    { model := g.model
      serial_number := g.serial
      firmware_version := g.firmware
      total_capacity_gb :=
        Float.ofNat g.total_sectors * 512.0 / (1024.0 * 1024.0 * 1024.0)
      native_capacity_gb := Float.ofNat g.native_capacity / (1024.0 * 1024.0 * 1024.0)
      had_hpa := g.has_hpa
      had_dco := g.has_dco
      security_features := format_security_features wipe_result.security_features }
  let wipe_details : WipeDetails :=
    { standard_used := wipe_request.standard.debugStr
      passes_completed := wipe_result.passes_completed
      sectors_wiped := wipe_result.sectors_wiped
      start_time := wipe_result.start_time
      completion_time := wipe_result.completion_time
      duration_minutes := wipe_result.duration_seconds / 60
      patterns_used := get_pattern_descriptions wipe_request.standard }
  let verification_details : VerificationDetails :=
    match wipe_result.validation_result with
    | some validation =>
        { verification_performed := true
          sectors_verified := validation.sectors_verified
          verification_sample_rate := 0.1
          pattern_verification_passed := validation.pattern_matches
          failed_sectors := validation.failed_sectors.length
          verification_time := some validation.completion_time }
    | none =>
        { verification_performed := false
          sectors_verified := 0
          verification_sample_rate := 0.0
          pattern_verification_passed := false
          failed_sectors := 0
          verification_time := none }
  let certificate : ErasureCertificate :=
    { certificate_id := certificate_id
      wipe_request_id := wipe_request.id
      issued_at := issued_at
      issuer := ca.name
      organization := ca.organization
      drive_info := drive_info
      wipe_details := wipe_details
      verification_details := verification_details
      compliance_standards := ["NIST SP 800-88 Rev. 1", "DoD 5220.22-M"]
      signature := ""
      public_key := ca.public_key_pem
      certificate_hash := "" }
  let content_hash := prim.hashHex (get_certificate_content_for_signing certificate)
  let signature := prim.sign ca.private_key_pem content_hash
  ({ certificate with certificate_hash := content_hash, signature := signature }, ca2)

/-- `CertificateAuthority::verify_certificate`: recompute the content hash over
the signing content, compare with the `certificate_hash` field (mismatch is
`Ok(false)`), then verify the signature against the certificate's own
`public_key`; decode failures are `Err`.  The `&self` receiver is unused by the
source and kept only for fidelity. -/
def verify_certificate (prim : CryptoPrim) (_self : CertificateAuthority)
    (certificate : ErasureCertificate) : Except WipeError Bool :=
  let content_hash := prim.hashHex (get_certificate_content_for_signing certificate)
  if content_hash != certificate.certificate_hash then .ok false
  else
    match prim.verifySig certificate.public_key content_hash certificate.signature with
    | none => .error { message := "Failed to decode signature or public key" }
    | some b => .ok b

/-- The certificate component of `generate_certificate` (the `issue` operation
the claims quantify over). -/
def issued_cert (prim : CryptoPrim) (ca : CertificateAuthority) (cid now : String)
    (req : WipeRequest) (res : CoreWipeResult) : ErasureCertificate :=
  (generate_certificate prim ca cid now req res).1

/-! ## Specification-side definitions

Restatements of the claims' tables in an independent formulation, together with
the predicates the claims quantify over, to be compared with the source-side
definitions above. -/

/-- The four method classes the C1 claim allows for a Purge:
hardware sanitize or crypto erase.  `VendorSpecific` (a `blkdiscard` fallback)
and `SecureFactoryReset` are neither. -/
def is_hardware_or_crypto_method : PurgeMethod → Bool
  | .AtaSecureErase | .AtaEnhancedSecureErase | .NvmeSanitize _ | .CryptoErase => true
  | .VendorSpecific _ | .SecureFactoryReset => false

/-- Amended purge-selection table as a per-kind capability priority list:
each entry pairs the capability guard with the method it selects. -/
def purge_candidates (d : Device) : List (Bool × PurgeMethod) :=
  match d.device_type with
  | .SSD =>
      [(d.capabilities.supports_crypto_erase, .CryptoErase),
       (d.capabilities.supports_nvme_sanitize, .NvmeSanitize .Block),
       (d.capabilities.supports_ata_secure_erase, .AtaEnhancedSecureErase)]
  | .HDD =>
      [(d.capabilities.supports_ata_secure_erase &&
          d.capabilities.supports_enhanced_erase, .AtaEnhancedSecureErase),
       (d.capabilities.supports_ata_secure_erase, .AtaSecureErase)]
  | .Removable =>
      [(d.capabilities.supports_crypto_erase, .CryptoErase),
       (true, .VendorSpecific "removable-secure-erase")]
  | .Unknown => []

/-- Error message of the amended purge-selection table per drive kind. -/
def purge_error_msg : DriveType → String
  | .SSD => "SSD does not support any secure purge methods"
  | .HDD => "HDD does not support secure erase"
  | .Removable => "Removable purge selection cannot fail"
  | .Unknown => "Unknown device type does not support purge operations"

/-- Amended purge selection: the first candidate whose capability guard holds,
or the per-kind error when none does. -/
def amended_purge_selection (d : Device) : Except String PurgeMethod :=
  match (purge_candidates d).find? (fun p => p.1) with
  | some p => .ok p.2
  | none => .error (purge_error_msg d.device_type)

/-- Amended Clear-pattern table: DoD3 on rotating disks, single-pass random on
SSDs (which include NVMe drives in this classification), single-pass zeros on
removable and unknown drives. -/
def amended_clear_selection : DriveType → ClearPattern
  | .HDD => .DoD5220 3
  | .SSD => .Random
  | .Removable => .Zeros
  | .Unknown => .Zeros

/-- The verification rule the C6 claim states for a final `Random` pass:
pass iff no sampled block is all-zeros and none is all-ones. -/
def claimed_random_block_rule (samples : List (List Nat)) : Bool :=
  samples.all (fun b => !(b.all (fun x => x == 0)) && !(b.all (fun x => x == 255)))

/-! ## Concrete sample values used by counterexamples and witnesses -/

/-- A non-system removable device with no hardware sanitize capability. -/
def removable_no_caps_device : Device :=
  { path := "/dev/sdz", name := "sdz", size := 1000000, device_type := .Removable,
    interface := .USB, vendor := none, model := none, serial := none,
    capabilities := ⟨false, false, false, false⟩, mount_points := [],
    is_system_drive := false }

/-- A non-system rotating disk supporting plain ATA Secure Erase. -/
def sample_hdd : Device :=
  { path := "/dev/sda", name := "sda", size := 1000000000, device_type := .HDD,
    interface := .SATA, vendor := none, model := none, serial := none,
    capabilities := ⟨true, false, false, false⟩, mount_points := [],
    is_system_drive := false }

/-- A non-system SATA SSD. -/
def sample_ssd : Device :=
  { path := "/dev/sdb", name := "sdb", size := 1000000000, device_type := .SSD,
    interface := .SATA, vendor := none, model := none, serial := none,
    capabilities := ⟨true, false, true, false⟩, mount_points := [],
    is_system_drive := false }

/-- The system drive. -/
def system_device : Device :=
  { path := "C:\\", name := "C:", size := 500000000000, device_type := .HDD,
    interface := .SATA, vendor := none, model := none, serial := none,
    capabilities := ⟨true, false, false, false⟩, mount_points := ["C:\\"],
    is_system_drive := true }

/-- A world where every external interaction succeeds and no verification
sample is read. -/
def all_ok_world : EngineWorld :=
  { openWriteOk := true, writeOk := true, openRandomOk := true, openReadOk := true,
    verifySamples := [], setPassOk := true, eraseOk := true, nvmeSanitizeOk := true,
    nvmeFormatOk := true, blkdiscardOk := true }

/-- A world whose two verification samples are 4096-byte blocks of the byte
0x37 — plausible residue of a successful random overwrite. -/
def random_residue_world : EngineWorld :=
  { all_ok_world with
      verifySamples := [List.replicate 4096 0x37, List.replicate 4096 0x37] }

/-- The engine with real-device access enabled. -/
def real_engine : SanitizationEngine :=
  SanitizationEngine.new.with_real_device_access true

/-- Device contents consisting of 64 bytes of 0x37 — plausible residue of a
successful random overwrite of a small device. -/
def random_wiped_content : List Nat := List.replicate 64 0x37

/-- A concrete oracle for one HPA-removal run: empty identify words (current
max 0), native max 5, successful SET MAX, and a re-probe reporting max 5. -/
def ata_oracle_example : AtaOracle :=
  { identifyFirst := .ok [], readNativeMax := .ok 5, setMax := .ok (),
    identifySecond := .ok (List.replicate 60 0 ++ [5]) }

/-- Toy crypto primitives for witnesses: the hash is the identity (injective),
a signature is the tag `SIG:` with the private key and digest, and
verification accepts exactly the signature made with the private key `K`
(whose public counterpart is `KPUB` below). -/
def toyPrim : CryptoPrim :=
  { hashHex := fun s => s
    sign := fun priv digest => "SIG:" ++ priv ++ ":" ++ digest
    verifySig := fun _pub digest sig => some (sig == "SIG:K:" ++ digest) }

/-- Toy issuing authority matching `toyPrim`. -/
def toyCA : CertificateAuthority :=
  { name := "SafeWipe", organization := "ACME", private_key_pem := "K",
    public_key_pem := "KPUB", certificate_counter := 0 }

/-- Concrete wipe request for witnesses. -/
def toyRequest : WipeRequest :=
  { id := "REQ1", target_path := "/dev/sdz", standard := .NIST80088Purge,
    passes := 3, verify_erasure := true }

/-- Concrete wipe result for witnesses. -/
def toyResult : CoreWipeResult :=
  { request_id := "REQ1", success := true, start_time := "T0",
    completion_time := "T1", duration_seconds := 120, sectors_wiped := 1000,
    passes_completed := 3,
    validation_result := some
      { sectors_verified := 100, failed_sectors := [], pattern_matches := true,
        checksum_valid := true, completion_time := "T1" },
    error_message := none,
    drive_geometry :=
      { model := "M1", serial := "S1", firmware := "F1", total_sectors := 1000,
        sector_size := 512, user_capacity := 512000, native_capacity := 512000,
        has_hpa := false, has_dco := false, hpa_size := 0, dco_size := 0 },
    security_features :=
      { security_supported := false, security_enabled := false,
        security_locked := false, security_frozen := false,
        enhanced_erase_supported := false, sanitize_supported := false,
        crypto_scramble_supported := false } }

/-- The certificate issued from the toy data. -/
def toyCert : ErasureCertificate :=
  issued_cert toyPrim toyCA "CERT1" "NOW" toyRequest toyResult

/-- A second, unrelated authority used to verify certificates it did not
issue. -/
def toyCA2 : CertificateAuthority :=
  { name := "Other", organization := "Elsewhere", private_key_pem := "K2",
    public_key_pem := "K2PUB", certificate_counter := 7 }

/-! ## Helper lemmas -/

/-- Every action of the purge executors is a spawned process command; purge
never performs a direct file write. -/
theorem execute_purge_method_all_proc (e : SanitizationEngine) (d : Device)
    (m : PurgeMethod) (w : EngineWorld) :
    ((execute_purge_method e d m w).2).all Action.isProc = true := by
  cases m with
  | AtaSecureErase =>
      show ((execute_ata_secure_erase e d w).2).all Action.isProc = true
      unfold execute_ata_secure_erase
      repeat' split
      all_goals rfl
  | AtaEnhancedSecureErase =>
      show ((execute_ata_enhanced_secure_erase e d w).2).all Action.isProc = true
      unfold execute_ata_enhanced_secure_erase
      repeat' split
      all_goals rfl
  | NvmeSanitize mode =>
      show ((execute_nvme_sanitize e d mode w).2).all Action.isProc = true
      unfold execute_nvme_sanitize
      repeat' split
      all_goals rfl
  | CryptoErase =>
      show ((execute_crypto_erase e d w).2).all Action.isProc = true
      unfold execute_crypto_erase
      repeat' split
      all_goals rfl
  | VendorSpecific tool =>
      show ((execute_vendor_specific_purge e d tool w).2).all Action.isProc = true
      unfold execute_vendor_specific_purge
      repeat' split
      all_goals rfl
  | SecureFactoryReset =>
      show ((execute_secure_factory_reset e d w).2).all Action.isProc = true
      unfold execute_secure_factory_reset
      repeat' split
      all_goals rfl

/-- The devices the plan executor invokes the engine on are exactly the
non-system devices of the plan, in order. -/
theorem execute_plan_go_invoked (e : SanitizationEngine) (m : SanitizationMethod)
    (w : EngineWorld) (l : List Device) :
    (execute_plan_go e m w l).invoked = l.filter (fun d => !d.is_system_drive) := by
  induction l with
  | nil => rfl
  | cons d rest ih =>
      cases hd : d.is_system_drive
      · rcases hs : sanitize_device e d m "job" w with ⟨res, acts⟩
        cases res <;> simp [execute_plan_go, hd, hs, List.filter_cons, ih]
      · simp [execute_plan_go, hd, List.filter_cons, ih]

/-- A system drive in the device list always yields its skip warning in the
created plan. -/
theorem plan_warns_system_device (devices : List Device) (method : SanitizationMethod)
    (d : Device) (hd : d ∈ devices) (hsys : d.is_system_drive = true)
    (p : SanitizationPlan) (hp : create_sanitization_plan devices method = .ok p) :
    ("⚠️ " ++ d.name ++ " is a system drive and will be skipped") ∈ p.safety_warnings := by
  injection hp with h
  subst h
  show _ ∈ ((devices.map (plan_device_warn_dur method)).map Prod.fst).flatten
    ++ plan_general_warnings method
  refine List.mem_append.mpr (Or.inl ?_)
  refine List.mem_flatten.mpr ⟨(plan_device_warn_dur method d).1, ?_, ?_⟩
  · rw [List.map_map]
    exact List.mem_map.mpr ⟨d, hd, rfl⟩
  · simp [plan_device_warn_dur, hsys]

/-! ## Claim C1 -/

/-- C1 counterexample: for a removable, non-system device with no hardware
capability, a Purge neither selects one of the four hardware-sanitize /
crypto-erase methods nor fails — it silently selects a vendor-specific
`blkdiscard` fallback. -/
theorem c1_counterexample :
    removable_no_caps_device.is_system_drive = false
    ∧ select_purge_method SanitizationEngine.new removable_no_caps_device =
        .ok (.VendorSpecific "removable-secure-erase")
    ∧ is_hardware_or_crypto_method (.VendorSpecific "removable-secure-erase") = false :=
  ⟨rfl, rfl, rfl⟩

/-- C1 (amended): for level Purge the engine never falls back to a software
overwrite (every action of the purge path is a spawned hardware command), and
the method selection follows a per-drive-kind capability priority: SSD prefers
CryptoErase, then NVMe Sanitize (Block), then ATA Enhanced Secure Erase,
failing when none is supported; HDD picks ATA Enhanced Secure Erase when the
enhanced capability is present, else plain ATA Secure Erase, failing without
ATA Secure Erase support; Removable picks CryptoErase when supported and
otherwise a vendor-specific `blkdiscard`-based erase (never a failure);
Unknown always fails.  Failures are plain error messages, not a
`NoPurgeMethodAvailable` code. -/
theorem c1_purge_selection_table :
    (∀ (e : SanitizationEngine) (d : Device),
        select_purge_method e d = amended_purge_selection d)
    ∧ (∀ (e : SanitizationEngine) (d : Device) (r : WipeResult) (w : EngineWorld),
        ((perform_purge_operation e d r w).2).all Action.isProc = true) := by
  constructor
  · intro e d
    obtain ⟨p, n, sz, dt, itf, vd, mo, se, ⟨c1, c2, c3, c4⟩, mp, sys⟩ := d
    cases dt <;> cases c1 <;> cases c2 <;> cases c3 <;> cases c4 <;> rfl
  · intro e d r w
    unfold perform_purge_operation
    rcases hsel : select_purge_method e d with s | m
    · rfl
    · have hproc := execute_purge_method_all_proc e d m w
      rcases hex : execute_purge_method e d m w with ⟨res, acts⟩
      rw [hex] at hproc
      cases res <;> · simp only [hex]; simpa using hproc

/-! ## Claim C7 -/

/-- C7 counterexample: a Clear on a removable device selects the `Zeros`
pattern, not the single-pass `Random` overwrite the claim requires. -/
theorem c7_counterexample :
    clear_pattern_choice removable_no_caps_device.device_type = ClearPattern.Zeros
    ∧ ClearPattern.Zeros ≠ ClearPattern.Random :=
  ⟨rfl, by decide⟩

/-- C7 (amended): the Clear-pattern table is DoD 5220.22-M with 3 passes for
HDDs, single-pass Random for SSDs (NVMe drives are classified as SSD), and
single-pass Zeros for Removable and Unknown drives; and in real mode the
three-pass DoD wipe writes a zeros pass, a ones pass and a random pass, in
that order. -/
theorem c7_clear_selection_table :
    (∀ t : DriveType, clear_pattern_choice t = amended_clear_selection t)
    ∧ (∀ (d : Device) (w : EngineWorld),
        w.openWriteOk = true → w.writeOk = true → w.openRandomOk = true →
        perform_dod_5220_wipe real_engine d 3 w =
          (.ok (),
           [.openWrite d.path,
            .writeAll d.path d.size (.bytes zeros_buf),
            .flushSync d.path,
            .openWrite d.path,
            .writeAll d.path d.size (.bytes ones_buf),
            .flushSync d.path,
            .openWrite d.path,
            .writeAll d.path d.size .random,
            .flushSync d.path])) := by
  constructor
  · intro t
    cases t <;> rfl
  · intro d w h1 h2 h3
    simp [perform_dod_5220_wipe, dod_go, dod_pass, overwrite_with_pattern,
      overwrite_pass_real, overwrite_with_random, real_engine,
      SanitizationEngine.new, SanitizationEngine.with_real_device_access, h1, h2, h3]

/-- C7 witness: the amended table and the DoD trace at concrete inputs. -/
theorem c7_clear_selection_table_witness :
    clear_pattern_choice DriveType.HDD = amended_clear_selection DriveType.HDD
    ∧ perform_dod_5220_wipe real_engine sample_hdd 3 all_ok_world =
        (.ok (),
         [.openWrite sample_hdd.path,
          .writeAll sample_hdd.path sample_hdd.size (.bytes zeros_buf),
          .flushSync sample_hdd.path,
          .openWrite sample_hdd.path,
          .writeAll sample_hdd.path sample_hdd.size (.bytes ones_buf),
          .flushSync sample_hdd.path,
          .openWrite sample_hdd.path,
          .writeAll sample_hdd.path sample_hdd.size .random,
          .flushSync sample_hdd.path]) :=
  ⟨c7_clear_selection_table.1 DriveType.HDD,
   c7_clear_selection_table.2 sample_hdd all_ok_world rfl rfl rfl⟩

/-! ## Claim C5 -/

/-- C5: with `allow_real_devices = false` every privileged sanitize command
(ATA Secure Erase, ATA Enhanced Secure Erase, NVMe Sanitize in every mode, and
crypto erase) performs no device action and returns simulated success, and a
freshly constructed engine has the flag off. -/
theorem c5_demo_mode_guard (e : SanitizationEngine) (d : Device) (w : EngineWorld)
    (h : e.allow_real_devices = false) :
    execute_ata_secure_erase e d w = (.ok (), [])
    ∧ execute_ata_enhanced_secure_erase e d w = (.ok (), [])
    ∧ (∀ mode, execute_nvme_sanitize e d mode w = (.ok (), []))
    ∧ execute_crypto_erase e d w = (.ok (), [])
    ∧ SanitizationEngine.new.allow_real_devices = false := by
  refine ⟨?_, ?_, fun mode => ?_, ?_, rfl⟩ <;>
    simp [execute_ata_secure_erase, execute_ata_enhanced_secure_erase,
      execute_nvme_sanitize, execute_crypto_erase, h]

/-- C5 witness: the guard evaluated on a fresh engine and a concrete device. -/
theorem c5_demo_mode_guard_witness :
    execute_ata_secure_erase SanitizationEngine.new removable_no_caps_device all_ok_world =
      (.ok (), [])
    ∧ execute_ata_enhanced_secure_erase SanitizationEngine.new removable_no_caps_device
        all_ok_world = (.ok (), [])
    ∧ (∀ mode, execute_nvme_sanitize SanitizationEngine.new removable_no_caps_device mode
        all_ok_world = (.ok (), []))
    ∧ execute_crypto_erase SanitizationEngine.new removable_no_caps_device all_ok_world =
        (.ok (), [])
    ∧ SanitizationEngine.new.allow_real_devices = false :=
  c5_demo_mode_guard SanitizationEngine.new removable_no_caps_device all_ok_world rfl

/-! ## Claim C8 -/

/-- C8: HPA detection reports `hidden_sectors * 512` bytes hidden, which equals
the clamped difference `max 0 (native − user) * 512` (the detector fixes the
sector size at 512 bytes); HPA is present exactly when the native max LBA
exceeds the user max LBA; and when READ NATIVE MAX ADDRESS fails, the native
capacity is taken equal to the user capacity and no HPA is reported. -/
theorem c8_hpa_detection (words : List Nat) :
    (∀ native : Nat,
        (detect_hpa words (.ok native)).hidden_sectors * 512 =
          ((native : Int) - (lba_from_words (use_ext_bit words) words : Int)).toNat * 512
      ∧ (detect_hpa words (.ok native)).present =
          decide (native > lba_from_words (use_ext_bit words) words)
      ∧ (detect_hpa words (.ok native)).native_max_lba = native
      ∧ (detect_hpa words (.ok native)).user_max_lba =
          lba_from_words (use_ext_bit words) words)
    ∧ (∀ msg : String,
        detect_hpa words (.error msg) =
          { present := false,
            user_max_lba := lba_from_words (use_ext_bit words) words,
            native_max_lba := lba_from_words (use_ext_bit words) words,
            hidden_sectors := 0 }) := by
  constructor
  · intro native
    refine ⟨?_, ?_, rfl, rfl⟩
    · simp only [detect_hpa]
      split <;> rename_i hgt <;> omega
    · simp only [detect_hpa]
      split <;> rename_i hgt
      · simp only [decide_eq_decide]
        omega
      · simp only [decide_eq_decide]
        omega
  · intro msg
    rfl

/-! ## Claim C9 -/

/-- C9: when an HPA is present (native max exceeds the current max) and all
four ATA commands succeed, thorough HPA removal issues exactly IDENTIFY, READ
NATIVE MAX ADDRESS, SET MAX ADDRESS with the native max LBA, and a re-probe
IDENTIFY, and reports success exactly when the re-probed max LBA equals the
native max LBA (a disagreeing re-probe yields `Ok(false)` — removal
incomplete — never success). -/
theorem c9_hpa_removal (o : AtaOracle) (words : List Nat) (native : Nat)
    (vwords : List Nat)
    (h1 : o.identifyFirst = .ok words) (h2 : o.readNativeMax = .ok native)
    (h3 : o.setMax = .ok ()) (h4 : o.identifySecond = .ok vwords)
    (hhpa : native > lba_from_words (use_ext_bit words) words) :
    (remove_hpa_thoroughly o).2 =
      [.identifyDevice, .readNativeMax (use_ext_bit words),
       .setMaxAddress native (use_ext_bit words), .identifyDevice]
    ∧ ((remove_hpa_thoroughly o).1 = .ok true ↔
        lba_from_words (use_ext_bit words) vwords = native) := by
  simp [remove_hpa_thoroughly, h1, h2, h3, h4, hhpa]

/-- C9 witness: removal run on a concrete oracle whose re-probe agrees. -/
theorem c9_hpa_removal_witness :
    (remove_hpa_thoroughly ata_oracle_example).2 =
      [.identifyDevice, .readNativeMax (use_ext_bit []),
       .setMaxAddress 5 (use_ext_bit []), .identifyDevice]
    ∧ ((remove_hpa_thoroughly ata_oracle_example).1 = .ok true ↔
        lba_from_words (use_ext_bit []) (List.replicate 60 0 ++ [5]) = 5) :=
  c9_hpa_removal ata_oracle_example [] 5 (List.replicate 60 0 ++ [5])
    rfl rfl rfl rfl (by decide)

/-! ## Claim C2 -/

/-- C2 counterexample: creating a plan for the system device is not rejected —
it returns `Ok` with the system device kept in the plan and only a skip
warning. -/
theorem c2_counterexample :
    create_sanitization_plan [system_device] SanitizationMethod.Clear =
      .ok { devices := [system_device], method := .Clear, estimated_duration := 0,
            safety_warnings :=
              ["⚠️ C: is a system drive and will be skipped",
               "⚠️ This operation will PERMANENTLY destroy all data",
               "⚠️ Ensure you have backups of any important data",
               "⚠️ This operation cannot be undone"] }
    ∧ system_device.is_system_drive = true :=
  ⟨rfl, rfl⟩

/-- C2 (amended): starting a sanitization directly on a system device is
rejected by the engine with the safety error string before any device action;
plan creation is never rejected — it keeps the system device in the plan and
records a skip warning for it; and plan execution invokes the engine exactly
on the non-system devices of the plan. -/
theorem c2_system_device_guard (e : SanitizationEngine) (d : Device)
    (m : SanitizationMethod) (wipe_id : String) (w : EngineWorld)
    (plan : SanitizationPlan) (h : d.is_system_drive = true) :
    sanitize_device e d m wipe_id w =
      (.error "Cannot sanitize system drive for safety reasons", [])
    ∧ (∀ devs : List Device, d ∈ devs →
        ∃ p, create_sanitization_plan devs m = .ok p ∧ p.devices = devs ∧
          ("⚠️ " ++ d.name ++ " is a system drive and will be skipped")
            ∈ p.safety_warnings)
    ∧ (execute_plan e plan w).invoked =
        plan.devices.filter (fun x => !x.is_system_drive) := by
  refine ⟨?_, ?_, ?_⟩
  · simp [sanitize_device, h]
  · intro devs hdev
    refine ⟨_, rfl, rfl, ?_⟩
    exact plan_warns_system_device devs m d hdev h _ rfl
  · exact execute_plan_go_invoked e plan.method w plan.devices

/-- C2 witness: the guard evaluated on the concrete system device. -/
theorem c2_system_device_guard_witness :
    sanitize_device SanitizationEngine.new system_device SanitizationMethod.Clear
      "job" all_ok_world =
      (.error "Cannot sanitize system drive for safety reasons", [])
    ∧ (execute_plan SanitizationEngine.new
          ⟨[system_device], .Clear, 0, []⟩ all_ok_world).invoked =
        [system_device].filter (fun x => !x.is_system_drive) := by
  have h := c2_system_device_guard SanitizationEngine.new system_device .Clear "job"
    all_ok_world ⟨[system_device], .Clear, 0, []⟩ rfl
  exact ⟨h.1, h.2.2⟩

/-! ## Claim C6 -/

set_option maxRecDepth 4000 in
/-- C6 counterexample: verification samples whose two 4096-byte blocks hold the
byte 0x37 satisfy the claimed rule for a `Random` final pass (no block is
all-zeros or all-ones), yet the engine's verification reports failure, because
it demands all-zero samples whatever pattern was written. -/
theorem c6_counterexample :
    claimed_random_block_rule random_residue_world.verifySamples = true
    ∧ (verify_clear_operation real_engine sample_ssd random_residue_world).1 = false
    ∧ verify_sanitization random_wiped_content .Random none = .ok true :=
  ⟨rfl, rfl, rfl⟩

/-- C6 (amended): in real mode with a readable device, the engine's
`verify_clear_operation` passes exactly when every byte of every sampled block
is zero — regardless of the pattern written (in demo mode it reports success
without reading); the `DataSanitizer`'s `verify_sanitization` instead reads a
single sample from the start of the device (default `min (size) 1 MiB` bytes)
and, for a `Random` pattern, passes exactly when that sample is neither
all-zeros nor all-ones. -/
theorem c6_verification_rules :
    (∀ (e : SanitizationEngine) (d : Device) (w : EngineWorld),
        e.allow_real_devices = true → w.openReadOk = true →
        (verify_clear_operation e d w).1 =
          w.verifySamples.all (fun b => b.all (fun x => x == 0)))
    ∧ (∀ (e : SanitizationEngine) (d : Device) (w : EngineWorld),
        e.allow_real_devices = false → verify_clear_operation e d w = (true, []))
    ∧ (∀ content : List Nat,
        verify_sanitization content .Random none =
          .ok (!((content.take (min content.length 1048576)).all (fun b => b == 0)) &&
               !((content.take (min content.length 1048576)).all (fun b => b == 255)))) := by
  refine ⟨?_, ?_, ?_⟩
  · intro e d w h1 h2
    simp [verify_clear_operation, h1, h2]
  · intro e d w h1
    simp [verify_clear_operation, h1]
  · intro content
    have hle : min content.length 1048576 ≤ content.length := Nat.min_le_left _ _
    simp [verify_sanitization, Nat.not_lt.mpr hle]

/-- C6 witness: the amended characterizations evaluated at concrete inputs. -/
theorem c6_verification_rules_witness :
    (verify_clear_operation real_engine sample_ssd random_residue_world).1 =
      random_residue_world.verifySamples.all (fun b => b.all (fun x => x == 0))
    ∧ verify_clear_operation SanitizationEngine.new sample_ssd all_ok_world = (true, [])
    ∧ verify_sanitization random_wiped_content .Random none =
        .ok (!((random_wiped_content.take
            (min random_wiped_content.length 1048576)).all (fun b => b == 0)) &&
          !((random_wiped_content.take
            (min random_wiped_content.length 1048576)).all (fun b => b == 255))) :=
  ⟨c6_verification_rules.1 real_engine sample_ssd random_residue_world rfl rfl,
   c6_verification_rules.2.1 SanitizationEngine.new sample_ssd all_ok_world rfl,
   c6_verification_rules.2.2 random_wiped_content⟩

/-! ## Certificate helper lemmas -/

/-- Right cancellation for string append. -/
theorem string_append_right_cancel {a b c : String} (h : a ++ c = b ++ c) : a = b :=
  String.ext (List.append_cancel_right (congrArg String.data h))

/-- Left cancellation for string append. -/
theorem string_append_left_cancel {a b c : String} (h : a ++ b = a ++ c) : b = c :=
  String.ext (List.append_cancel_left (congrArg String.data h))

/-- Changing one element of a joined tail changes the tail. -/
theorem join_tail_middle_ne (sep : String) (a b : String) (hab : a ≠ b) :
    ∀ (xs ys : List String),
      join_tail sep (xs ++ a :: ys) ≠ join_tail sep (xs ++ b :: ys) := by
  intro xs
  induction xs with
  | nil =>
      intro ys h
      exact hab (string_append_left_cancel (string_append_right_cancel h))
  | cons x xs ih =>
      intro ys h
      exact ih ys (string_append_left_cancel h)

/-- Changing one element of a separator join changes the join. -/
theorem join_sep_middle_ne (sep : String) (xs : List String) {a b : String}
    {ys : List String} (hab : a ≠ b) :
    join_sep sep (xs ++ a :: ys) ≠ join_sep sep (xs ++ b :: ys) := by
  cases xs with
  | nil =>
      intro h
      exact hab (string_append_right_cancel h)
  | cons x xs =>
      intro h
      exact join_tail_middle_ne sep a b hab xs ys (string_append_left_cancel h)

/-- Rust's `Display` rendering of booleans is injective. -/
theorem bool_toString_inj {a b : Bool} (h : toString a = toString b) : a = b := by
  cases a <;> cases b <;> revert h <;> decide

/-- A certificate whose hash field equals the hash of its signing content and
whose signature verifies against its own public key passes verification,
whoever verifies it. -/
theorem verify_of_fields (prim : CryptoPrim) (ca2 : CertificateAuthority)
    (c : ErasureCertificate)
    (hh : prim.hashHex (get_certificate_content_for_signing c) = c.certificate_hash)
    (hs : prim.verifySig c.public_key c.certificate_hash c.signature = some true) :
    verify_certificate prim ca2 c = .ok true := by
  unfold verify_certificate
  dsimp only
  rw [hh, bne_self_eq_false]
  simp only [Bool.false_eq_true, if_false]
  rw [hs]

/-- A certificate whose hash field disagrees with the hash of its signing
content fails verification with `Ok(false)`. -/
theorem verify_hash_mismatch (prim : CryptoPrim) (ca2 : CertificateAuthority)
    (c : ErasureCertificate)
    (hne : prim.hashHex (get_certificate_content_for_signing c) ≠ c.certificate_hash) :
    verify_certificate prim ca2 c = .ok false := by
  unfold verify_certificate
  dsimp only
  rw [if_pos (bne_iff_ne.mpr hne)]

/-! ## Claim C4 -/

/-- C4: a freshly issued certificate verifies (whichever authority instance
verifies it), given that the signature scheme accepts the issuer's signatures
under the issuer's public key; and the signing content indeed excludes the
`certificate_hash` and `signature` fields. -/
theorem c4_issue_verify_roundtrip (prim : CryptoPrim) (ca ca2 : CertificateAuthority)
    (cid now : String) (req : WipeRequest) (res : CoreWipeResult)
    (hsig : ∀ dgst, prim.verifySig ca.public_key_pem dgst
        (prim.sign ca.private_key_pem dgst) = some true) :
    verify_certificate prim ca2 (issued_cert prim ca cid now req res) = .ok true
    ∧ (∀ (c : ErasureCertificate) (h s : String),
        get_certificate_content_for_signing
            { c with certificate_hash := h, signature := s } =
          get_certificate_content_for_signing c) :=
  ⟨verify_of_fields prim ca2 _ rfl (hsig _), fun _ _ _ => rfl⟩

/-- The toy scheme accepts the toy issuer's signatures. -/
theorem toy_hsig (d : String) :
    toyPrim.verifySig toyCA.public_key_pem d (toyPrim.sign toyCA.private_key_pem d) =
      some true := by
  show some ((("SIG:" ++ "K") ++ ":") ++ d == "SIG:K:" ++ d) = some true
  rw [show (("SIG:" ++ "K") ++ ":" : String) = "SIG:K:" from rfl, beq_self_eq_true]

/-- The toy scheme accepts only the toy issuer's signature of a digest. -/
theorem toy_hsound (d s : String)
    (hs : toyPrim.verifySig toyCA.public_key_pem d s = some true) :
    s = toyPrim.sign toyCA.private_key_pem d := by
  have hb : (s == "SIG:K:" ++ d) = true := Option.some.inj hs
  have hseq : s = "SIG:K:" ++ d := eq_of_beq hb
  show s = (("SIG:" ++ "K") ++ ":") ++ d
  rw [hseq, show (("SIG:" ++ "K") ++ ":" : String) = "SIG:K:" from rfl]

/-- The toy hash is injective. -/
theorem toy_hinj : Function.Injective toyPrim.hashHex :=
  fun _ _ hab => hab

/-- The toy certificate's signature verifies against its own fields. -/
theorem toy_cert_sig_ok :
    toyPrim.verifySig toyCert.public_key toyCert.certificate_hash toyCert.signature =
      some true := by
  show some (toyCert.signature == "SIG:K:" ++ toyCert.certificate_hash) = some true
  rw [show toyCert.signature = "SIG:K:" ++ toyCert.certificate_hash from rfl,
    beq_self_eq_true]

/-- C4 witness: the round trip evaluated on the toy issuer and data. -/
theorem c4_issue_verify_roundtrip_witness :
    verify_certificate toyPrim toyCA toyCert = .ok true
    ∧ get_certificate_content_for_signing
        { toyCert with certificate_hash := "H2", signature := "S2" } =
      get_certificate_content_for_signing toyCert := by
  have h := c4_issue_verify_roundtrip toyPrim toyCA toyCA "CERT1" "NOW" toyRequest
    toyResult toy_hsig
  exact ⟨h.1, h.2 toyCert "H2" "S2"⟩

/-! ## Claim C3 -/

/-- C3 counterexample: mutating the `firmware_version` field of an issued
certificate — a field the signing content omits — still verifies as valid, so
verification does not detect tampering of every field. -/
theorem c3_counterexample :
    ({ toyCert with drive_info.firmware_version := "TAMPERED" } :
        ErasureCertificate).drive_info.firmware_version ≠
      toyCert.drive_info.firmware_version
    ∧ verify_certificate toyPrim toyCA
        { toyCert with drive_info.firmware_version := "TAMPERED" } = .ok true :=
  ⟨by decide, rfl⟩

/-- C3 (amended): verification detects exactly the tampering that is visible in
the signing content, the hash field or the signature field of an issued
certificate.  Mutating any field outside the signing content
(`firmware_version`, the two derived capacity values, `had_hpa`, `had_dco`,
`security_features`, `duration_minutes`, `patterns_used`,
`verification_sample_rate`, `verification_time`, and a `compliance_standards`
change whose comma-join collides) still verifies as valid.  Any mutation that
changes the signing content — in particular any change to one of the signed
string fields, a signed boolean field, or a `compliance_standards` change
whose comma-join differs — yields `Ok(false)`, assuming the hash is
collision-free; mutating `certificate_hash` yields `Ok(false)`; and mutating
`signature` never verifies as valid, assuming only the issuer's signature of
the digest is accepted. -/
theorem c3_tamper_detection (prim : CryptoPrim) (ca ca2 : CertificateAuthority)
    (cid now : String) (req : WipeRequest) (res : CoreWipeResult)
    (cert : ErasureCertificate) (hcert : cert = issued_cert prim ca cid now req res)
    (hinj : Function.Injective prim.hashHex)
    (hsig : ∀ dgst, prim.verifySig ca.public_key_pem dgst
        (prim.sign ca.private_key_pem dgst) = some true)
    (hsound : ∀ dgst s, prim.verifySig ca.public_key_pem dgst s = some true →
        s = prim.sign ca.private_key_pem dgst) :
    (∀ v, verify_certificate prim ca2
        { cert with drive_info.firmware_version := v } = .ok true)
    ∧ (∀ v, verify_certificate prim ca2
        { cert with drive_info.total_capacity_gb := v } = .ok true)
    ∧ (∀ v, verify_certificate prim ca2
        { cert with drive_info.native_capacity_gb := v } = .ok true)
    ∧ (∀ v, verify_certificate prim ca2
        { cert with drive_info.had_hpa := v } = .ok true)
    ∧ (∀ v, verify_certificate prim ca2
        { cert with drive_info.had_dco := v } = .ok true)
    ∧ (∀ v, verify_certificate prim ca2
        { cert with drive_info.security_features := v } = .ok true)
    ∧ (∀ v, verify_certificate prim ca2
        { cert with wipe_details.duration_minutes := v } = .ok true)
    ∧ (∀ v, verify_certificate prim ca2
        { cert with wipe_details.patterns_used := v } = .ok true)
    ∧ (∀ v, verify_certificate prim ca2
        { cert with verification_details.verification_sample_rate := v } = .ok true)
    ∧ (∀ v, verify_certificate prim ca2
        { cert with verification_details.verification_time := v } = .ok true)
    ∧ (∀ c2 : ErasureCertificate, c2.certificate_hash = cert.certificate_hash →
        get_certificate_content_for_signing c2 ≠
          get_certificate_content_for_signing cert →
        verify_certificate prim ca2 c2 = .ok false)
    ∧ (∀ v, v ≠ cert.certificate_id →
        verify_certificate prim ca2 { cert with certificate_id := v } = .ok false)
    ∧ (∀ v, v ≠ cert.wipe_request_id →
        verify_certificate prim ca2 { cert with wipe_request_id := v } = .ok false)
    ∧ (∀ v, v ≠ cert.issued_at →
        verify_certificate prim ca2 { cert with issued_at := v } = .ok false)
    ∧ (∀ v, v ≠ cert.issuer →
        verify_certificate prim ca2 { cert with issuer := v } = .ok false)
    ∧ (∀ v, v ≠ cert.organization →
        verify_certificate prim ca2 { cert with organization := v } = .ok false)
    ∧ (∀ v, v ≠ cert.drive_info.serial_number →
        verify_certificate prim ca2
          { cert with drive_info.serial_number := v } = .ok false)
    ∧ (∀ v, v ≠ cert.drive_info.model →
        verify_certificate prim ca2 { cert with drive_info.model := v } = .ok false)
    ∧ (∀ v, v ≠ cert.wipe_details.standard_used →
        verify_certificate prim ca2
          { cert with wipe_details.standard_used := v } = .ok false)
    ∧ (∀ v, v ≠ cert.wipe_details.start_time →
        verify_certificate prim ca2
          { cert with wipe_details.start_time := v } = .ok false)
    ∧ (∀ v, v ≠ cert.wipe_details.completion_time →
        verify_certificate prim ca2
          { cert with wipe_details.completion_time := v } = .ok false)
    ∧ (∀ v, v ≠ cert.verification_details.verification_performed →
        verify_certificate prim ca2
          { cert with verification_details.verification_performed := v } = .ok false)
    ∧ (∀ v, v ≠ cert.verification_details.pattern_verification_passed →
        verify_certificate prim ca2
          { cert with verification_details.pattern_verification_passed := v } =
          .ok false)
    ∧ (∀ l, join_sep "," l ≠ join_sep "," cert.compliance_standards →
        verify_certificate prim ca2 { cert with compliance_standards := l } = .ok false)
    ∧ (∀ l, join_sep "," l = join_sep "," cert.compliance_standards →
        verify_certificate prim ca2 { cert with compliance_standards := l } = .ok true)
    ∧ (∀ h2, h2 ≠ cert.certificate_hash →
        verify_certificate prim ca2 { cert with certificate_hash := h2 } = .ok false)
    ∧ (∀ s2, s2 ≠ cert.signature →
        verify_certificate prim ca2 { cert with signature := s2 } ≠ .ok true) := by
  subst hcert
  refine ⟨fun v => verify_of_fields prim ca2 _ rfl (hsig _),
    fun v => verify_of_fields prim ca2 _ rfl (hsig _),
    fun v => verify_of_fields prim ca2 _ rfl (hsig _),
    fun v => verify_of_fields prim ca2 _ rfl (hsig _),
    fun v => verify_of_fields prim ca2 _ rfl (hsig _),
    fun v => verify_of_fields prim ca2 _ rfl (hsig _),
    fun v => verify_of_fields prim ca2 _ rfl (hsig _),
    fun v => verify_of_fields prim ca2 _ rfl (hsig _),
    fun v => verify_of_fields prim ca2 _ rfl (hsig _),
    fun v => verify_of_fields prim ca2 _ rfl (hsig _),
    ?_, ?_, ?_, ?_, ?_, ?_, ?_, ?_, ?_, ?_, ?_, ?_, ?_, ?_, ?_, ?_, ?_⟩
  · intro c2 hh hc
    refine verify_hash_mismatch _ _ _ ?_
    intro heq
    rw [hh] at heq
    exact hc (hinj heq)
  · intro v hv
    refine verify_hash_mismatch _ _ _ ?_
    intro heq
    exact join_sep_middle_ne "|" [] hv (hinj heq)
  · intro v hv
    refine verify_hash_mismatch _ _ _ ?_
    intro heq
    exact join_sep_middle_ne "|" [_] hv (hinj heq)
  · intro v hv
    refine verify_hash_mismatch _ _ _ ?_
    intro heq
    exact join_sep_middle_ne "|" [_, _] hv (hinj heq)
  · intro v hv
    refine verify_hash_mismatch _ _ _ ?_
    intro heq
    exact join_sep_middle_ne "|" [_, _, _] hv (hinj heq)
  · intro v hv
    refine verify_hash_mismatch _ _ _ ?_
    intro heq
    exact join_sep_middle_ne "|" [_, _, _, _] hv (hinj heq)
  · intro v hv
    refine verify_hash_mismatch _ _ _ ?_
    intro heq
    exact join_sep_middle_ne "|" [_, _, _, _, _] hv (hinj heq)
  · intro v hv
    refine verify_hash_mismatch _ _ _ ?_
    intro heq
    exact join_sep_middle_ne "|" [_, _, _, _, _, _] hv (hinj heq)
  · intro v hv
    refine verify_hash_mismatch _ _ _ ?_
    intro heq
    exact join_sep_middle_ne "|" [_, _, _, _, _, _, _] hv (hinj heq)
  · intro v hv
    refine verify_hash_mismatch _ _ _ ?_
    intro heq
    exact join_sep_middle_ne "|" [_, _, _, _, _, _, _, _, _, _] hv (hinj heq)
  · intro v hv
    refine verify_hash_mismatch _ _ _ ?_
    intro heq
    exact join_sep_middle_ne "|" [_, _, _, _, _, _, _, _, _, _, _] hv (hinj heq)
  · intro v hv
    refine verify_hash_mismatch _ _ _ ?_
    intro heq
    exact join_sep_middle_ne "|" [_, _, _, _, _, _, _, _, _, _, _, _]
      (fun hs2 => hv (bool_toString_inj hs2)) (hinj heq)
  · intro v hv
    refine verify_hash_mismatch _ _ _ ?_
    intro heq
    exact join_sep_middle_ne "|" [_, _, _, _, _, _, _, _, _, _, _, _, _, _]
      (fun hs2 => hv (bool_toString_inj hs2)) (hinj heq)
  · intro l hl
    refine verify_hash_mismatch _ _ _ ?_
    intro heq
    exact join_sep_middle_ne "|" [_, _, _, _, _, _, _, _, _, _, _, _, _, _, _, _]
      hl (hinj heq)
  · intro l hl
    refine verify_of_fields _ _ _ ?_ (hsig _)
    have hceq : get_certificate_content_for_signing
        { issued_cert prim ca cid now req res with compliance_standards := l } =
        get_certificate_content_for_signing (issued_cert prim ca cid now req res) := by
      unfold get_certificate_content_for_signing content_fields
      dsimp only
      rw [hl]
    rw [hceq]
    rfl
  · intro h2 hv
    refine verify_hash_mismatch _ _ _ ?_
    intro heq
    exact hv heq.symm
  · intro s2 hv hcontra
    unfold verify_certificate at hcontra
    dsimp only at hcontra
    rw [show prim.hashHex (get_certificate_content_for_signing
        { issued_cert prim ca cid now req res with signature := s2 }) =
        ({ issued_cert prim ca cid now req res with
            signature := s2 }).certificate_hash from rfl,
      bne_self_eq_false] at hcontra
    simp only [Bool.false_eq_true, if_false] at hcontra
    rcases hvs : prim.verifySig
        ({ issued_cert prim ca cid now req res with signature := s2 }).public_key
        ({ issued_cert prim ca cid now req res with
            signature := s2 }).certificate_hash s2 with _ | b
    · rw [hvs] at hcontra
      exact Except.noConfusion hcontra
    · rw [hvs] at hcontra
      have hb : b = true := Except.ok.inj hcontra
      subst hb
      have hs2 := hsound _ s2 hvs
      exact hv hs2

/-- C3 witness: unsigned-field and signed-field mutations of the toy
certificate, decided through the amended theorem. -/
theorem c3_tamper_detection_witness :
    verify_certificate toyPrim toyCA2
      { toyCert with wipe_details.patterns_used := [] } = .ok true
    ∧ verify_certificate toyPrim toyCA2 { toyCert with issuer := "Mallory" } =
        .ok false := by
  have h := c3_tamper_detection toyPrim toyCA toyCA2 "CERT1" "NOW" toyRequest
    toyResult toyCert rfl toy_hinj toy_hsig toy_hsound
  obtain ⟨u1, u2, u3, u4, u5, u6, u7, u8, u9, u10, g, s1, s2, s3, s4, s5, s6, s7,
    s8, s9, s10, b1, b2, cs1, cs2, h1, sg1⟩ := h
  exact ⟨u8 [], s4 "Mallory" (by decide)⟩

/-! ## Claim C10 -/

/-- C10: verification checks the signature against the certificate's own
embedded public key and ignores the verifying authority entirely: any
certificate whose hash field matches its content hash and whose signature
verifies under its own `public_key` is accepted by every
`CertificateAuthority` instance, and the verification outcome is the same for
any two verifying instances. -/
theorem c10_verify_uses_embedded_key (prim : CryptoPrim) (cert : ErasureCertificate)
    (hh : cert.certificate_hash =
        prim.hashHex (get_certificate_content_for_signing cert))
    (hs : prim.verifySig cert.public_key cert.certificate_hash cert.signature =
        some true) :
    (∀ ca : CertificateAuthority, verify_certificate prim ca cert = .ok true)
    ∧ (∀ ca1 ca2 : CertificateAuthority,
        verify_certificate prim ca1 cert = verify_certificate prim ca2 cert) :=
  ⟨fun ca => verify_of_fields prim ca cert hh.symm hs, fun _ _ => rfl⟩

/-- C10 witness: the toy certificate accepted by an unrelated authority. -/
theorem c10_verify_uses_embedded_key_witness :
    verify_certificate toyPrim toyCA2 toyCert = .ok true
    ∧ verify_certificate toyPrim toyCA toyCert =
        verify_certificate toyPrim toyCA2 toyCert := by
  have h := c10_verify_uses_embedded_key toyPrim toyCert rfl toy_cert_sig_ok
  exact ⟨h.1 toyCA2, h.2 toyCA toyCA2⟩

end HddTool
